import Mathlib

/-!
Shallow embedding of `src/app/protocols/my_proto.py` (class `IudeenProto`),
the per-connection adapter bridging an asyncio transport to an ASGI
websocket application through the `websockets` sans-io codec.

Conventions of the embedding:
* Python `self` state becomes the `Proto` structure; every method becomes a
  pure function `Proto → ... → Proto` (or `Except` for methods that raise).
  In every raising branch of the source, the `raise` happens before any
  mutation of `self`, the queue or the transport, so modelling a raise as
  an `Except.error` that returns no state is faithful.
* Bytes handed to the transport are kept as abstract `Frame` descriptors
  rather than encoded octets: the frame codec is an external collaborator
  (spec section 6), so only which frames were produced matters.
* The codec (`websockets.server.ServerConnection`) is modelled from its
  external contract: `send_text` / `send_binary` / `send_close` queue a
  frame into an internal buffer and `data_to_send` drains that buffer.
  This is the charitable model: the real codec raises `InvalidState` when
  `send_close` is called while not open, which only makes the behaviours
  proved below fail earlier, never succeed.
* Quote characters inside Python error message strings are elided.
-/

namespace MyProto

/-- Python values that can sit in the `bytes` / `text` fields of an ASGI
message handed to `send`: `None`, a `str`, a bytes-like object
(`bytes` / `bytearray` / `memoryview`), a `dict`, or a `list`. -/
inductive PyVal where
  | pynone
  | pystr (s : String)
  | pybytes (b : List Nat)
  | pydict
  | pylist
deriving DecidableEq

/-- The first `isinstance(data, str)` check of `IudeenProto.send`. -/
def PyVal.isStr : PyVal → Bool
  | .pystr _ => true
  | _ => false

/-- The `isinstance(data, (bytes, bytearray, memoryview))` check of
`IudeenProto.send`. -/
def PyVal.isBytesLike : PyVal → Bool
  | .pybytes _ => true
  | _ => false

/-- Inbound (adapter to application) events, mirroring the dicts the source
enqueues with `queue.put_nowait`; the `code` of a disconnect is `none` when
the dict carries `"code": None` or no code key at all. -/
inductive InEvent where
  | connect
  | receiveText (s : String)
  | receiveBytes (b : List Nat)
  | disconnect (code : Option Nat)
deriving DecidableEq

/-- A descriptor of bytes handed to `transport.write`: websocket frames
produced by the codec, handshake responses, and the raw h11-encoded HTTP
response that only `handle_no_connect` builds. -/
inductive Frame where
  | text (s : String)
  | binary (b : List Nat)
  | close (code : Nat) (reason : String)
  | acceptResponse
  | rejectResponse (status : Nat) (body : String)
  | pong (b : List Nat)
  | http (status : Nat) (headers : List (String × String)) (body : String)
deriving DecidableEq

/-- True exactly for the raw h11-encoded HTTP response frames that
`handle_no_connect` is the only producer of. -/
def Frame.isHttpResp : Frame → Bool
  | .http _ _ _ => true
  | _ => false

/-- The codec state enum `websockets.connection.State`:
`CONNECTING, OPEN, CLOSING, CLOSED = range(4)` (an `IntEnum`). -/
inductive WsState where
  | CONNECTING
  | OPEN
  | CLOSING
  | CLOSED
deriving DecidableEq

/-- Numeric value of a `State` member (`range(4)` in declaration order). -/
def WsState.val : WsState → Nat
  | .CONNECTING => 0
  | .OPEN => 1
  | .CLOSING => 2
  | .CLOSED => 3

/-- The expression `self.conn.state.CLOSING` in `handle_close`: in Python,
attribute access on an enum member resolves other members of the same enum,
so this evaluates to the class member `State.CLOSING` whatever the current
state is. -/
def stateDotCLOSING (_ : WsState) : WsState := WsState.CLOSING

/-- Python truthiness of an `IntEnum` member: true iff its value is not 0. -/
def pyTruthy (s : WsState) : Bool := s.val != 0

/-- The asyncio transport as the adapter observes it: the sequence of frames
written, how many times `close()` was called, the `is_closing()` flag, and
how many times `pause_reading()` was called. -/
structure Transport where
  writes : List Frame := []
  closeCalls : Nat := 0
  isClosingFlag : Bool := false
  pauseReadingCalls : Nat := 0
deriving DecidableEq

/-- One `transport.write(data)` call. -/
def Transport.write (t : Transport) (f : Frame) : Transport :=
  { t with writes := t.writes ++ [f] }

/-- Writing every chunk the codec returned; used both for
`for data in self.conn.data_to_send(): self.transport.write(data)` and for
`self.transport.write(self.conn.data_to_send())` (the latter writes the
whole list in one call; only the frames written matter here). -/
def Transport.writeAll (t : Transport) (fs : List Frame) : Transport :=
  { t with writes := t.writes ++ fs }

/-- `transport.close()`: counted, and from then on `is_closing()` is true. -/
def Transport.close (t : Transport) : Transport :=
  { t with closeCalls := t.closeCalls + 1, isClosingFlag := true }

/-- `transport.is_closing()`. -/
def Transport.is_closing (t : Transport) : Bool := t.isClosingFlag

/-- `transport.pause_reading()`. -/
def Transport.pause_reading (t : Transport) : Transport :=
  { t with pauseReadingCalls := t.pauseReadingCalls + 1 }

/-- The `websockets.server.ServerConnection` codec, modelled from its
external contract (spec section 6): an internal buffer of frames awaiting
`data_to_send`, and the connection state. -/
structure Codec where
  pending : List Frame := []
  state : WsState := .CONNECTING
deriving DecidableEq

/-- `conn.send_text(payload)`: queue a text frame. -/
def Codec.send_text (c : Codec) (s : String) : Codec :=
  { c with pending := c.pending ++ [.text s] }

/-- `conn.send_binary(payload)`: queue a binary frame. -/
def Codec.send_binary (c : Codec) (b : List Nat) : Codec :=
  { c with pending := c.pending ++ [.binary b] }

/-- `conn.send_close(code, reason)`: queue a close frame and move the codec
to CLOSING. The real codec raises `InvalidState` when not OPEN; this model
lets the call succeed in every state, the reading most charitable to the
adapter. -/
def Codec.send_close (c : Codec) (code : Nat) (reason : String) : Codec :=
  { c with pending := c.pending ++ [.close code reason], state := .CLOSING }

/-- `conn.data_to_send()`: drain the buffer. -/
def Codec.data_to_send (c : Codec) : List Frame × Codec :=
  (c.pending, { c with pending := [] })

/-- `conn.accept(request)`: the handshake acceptance response descriptor. -/
def Codec.accept (_ : Codec) : Frame := Frame.acceptResponse

/-- `conn.reject(status, text)`: a rejection response descriptor. -/
def Codec.reject (_ : Codec) (status : Nat) (body : String) : Frame :=
  Frame.rejectResponse status body

/-- `conn.send_response(response)`: queue the response; a 101 acceptance
opens the connection. -/
def Codec.send_response (c : Codec) (f : Frame) : Codec :=
  { c with pending := c.pending ++ [f],
           state := match f with
             | .acceptResponse => .OPEN
             | _ => c.state }

/-- The mutable per-connection state of `IudeenProto`: `self.queue` (as the
list of events enqueued, oldest first), `self.handshake_complete`,
`self.close_sent`, `self.conn`, the transport, `self.read_paused`,
`self.bytes` (named `bytesBuf`), `self.text` (named `textBuf`), and the
shared `server_state.tasks` registry with a fresh-id counter for
`loop.create_task`. -/
structure Proto where
  queue : List InEvent := []
  handshake_complete : Bool := false
  close_sent : Bool := false
  conn : Codec := {}
  transport : Transport := {}
  read_paused : Bool := false
  bytesBuf : List Nat := []
  textBuf : String := ""
  tasks : List Nat := []
  nextTask : Nat := 0
deriving DecidableEq

/-- An ASGI message passed to `send`. `type` is `message["type"]`; `bytesF`
and `textF` are `message.get("bytes")` / `message.get("text")` (`pynone`
when the key is absent or maps to `None`); `code` and `reason` model
`message.get("code", 1000)` / `message.get("reason", "")`. -/
structure Message where
  type : String
  bytesF : PyVal := .pynone
  textF : PyVal := .pynone
  code : Option Nat := none
  reason : Option String := none
deriving DecidableEq

/-- The expression `data = text_data if bytes_data is None else bytes_data`
of `IudeenProto.send`. -/
def Message.wsData (m : Message) : PyVal :=
  if m.bytesF = PyVal.pynone then m.textF else m.bytesF

/-- In the source, `message` is the ASGI dict passed to `send`; a Python
`dict` is always an instance of `typing.Mapping`, so the
`isinstance(message, Mapping)` check is constantly true. -/
def messageIsMapping (_ : Message) : Bool := true

/-- Likewise a `dict` is always `Iterable`; the check is constantly true
(and is anyway shadowed by the Mapping check before it). -/
def messageIsIterable (_ : Message) : Bool := true

/-- The exceptions `IudeenProto.send` can raise. -/
inductive SendError where
  | runtimeError (msg : String)
  | typeError (msg : String)
  | notImplementedError (msg : String)
deriving DecidableEq

/-- A binary data event from the codec as `handle_bytes` reads it:
`event.data` and `event.message_finished`. -/
structure FrameEvent where
  data : List Nat
  message_finished : Bool
deriving DecidableEq

/-- The upgrade `Request` event (only the parts the modelled handlers
touch). -/
structure RequestData where
  path : String := ""
deriving DecidableEq

/-- A typed protocol event as `handle_events` inspects it: either an
`isinstance(event, Request)` upgrade request, or a frame with an opcode. -/
inductive WsEvent where
  | request (r : RequestData)
  | textFrame (s : String) (finFlag : Bool)
  | binaryFrame (b : List Nat) (finFlag : Bool)
  | closeFrame (code : Nat)
  | pingFrame (b : List Nat)
  | pongFrame (b : List Nat)
  | contFrame (b : List Nat) (finFlag : Bool)
deriving DecidableEq

/-- `IudeenProto.shutdown`: unconditionally enqueue a 1012 disconnect, ask
the codec for a close frame, write the codec's pending bytes, close the
transport. The source has no idempotence guard of any kind. -/
def shutdown (p : Proto) : Proto :=
  let p1 := { p with queue := p.queue ++ [InEvent.disconnect (some 1012)] }
  let conn1 := p1.conn.send_close 1012 ""
  let out := conn1.data_to_send
  { p1 with conn := out.2, transport := (p1.transport.writeAll out.1).close }

/-- `IudeenProto.on_task_complete`: `self.tasks.discard(task)`. -/
def on_task_complete (tasks : List Nat) (t : Nat) : List Nat :=
  tasks.filter (fun x => x != t)

/-- `IudeenProto.handle_connect` (the parts with observable effect on the
modelled state): accept the handshake, queue the response in the codec,
enqueue the inbound connect event, create the application task and register
it in the shared task set. -/
def handle_connect (p : Proto) (_ : RequestData) : Proto :=
  let conn1 := p.conn.send_response (p.conn.accept)
  { p with conn := conn1,
           queue := p.queue ++ [.connect],
           tasks := p.tasks ++ [p.nextTask],
           nextTask := p.nextTask + 1 }

/-- `IudeenProto.handle_no_connect`: build an h11 400 response with headers
content-type / connection and the failure reason as body, write it, close
the transport. The source pushes the h11 events through `self.conn.send`, a
method the `websockets` `ServerConnection` does not have (a leftover of a
wsproto port), so at runtime the method would raise `AttributeError`
before writing; the model charitably performs the intended writes. -/
def handle_no_connect (p : Proto) (reason : String) : Proto :=
  let f := Frame.http 400
    [("content-type", "text/plain; charset=utf-8"), ("connection", "close")]
    reason
  { p with transport := (p.transport.write f).close }

/-- `IudeenProto.handle_text`: record the text, enqueue the inbound receive
event, flush the codec's pending bytes. -/
def handle_text (p : Proto) (s : String) : Proto :=
  let p1 := { p with textBuf := s, queue := p.queue ++ [InEvent.receiveText s] }
  let out := p1.conn.data_to_send
  { p1 with conn := out.2, transport := p1.transport.writeAll out.1 }

/-- `IudeenProto.handle_bytes`: accumulate the fragment into `self.bytes`;
when the codec signals `message_finished`, enqueue the accumulated payload
as one inbound receive event, reset the buffer, and pause reading if not
already paused. -/
def handle_bytes (p : Proto) (e : FrameEvent) : Proto :=
  let p1 := { p with bytesBuf := p.bytesBuf ++ e.data }
  if e.message_finished then
    let p2 := { p1 with queue := p1.queue ++ [.receiveBytes p1.bytesBuf],
                        bytesBuf := [] }
    if !p2.read_paused then
      { p2 with read_paused := true,
                transport := p2.transport.pause_reading }
    else p2
  else p1

/-- `IudeenProto.handle_close`: the guard `if self.conn.state.CLOSING:`
evaluates the class member `State.CLOSING` (value 2), which is truthy, so
the flush runs in every state; then enqueue a disconnect with the fixed
code 1005 and close the transport. -/
def handle_close (p : Proto) : Proto :=
  let p1 :=
    if pyTruthy (stateDotCLOSING p.conn.state) then
      let out := p.conn.data_to_send
      { p with conn := out.2, transport := p.transport.writeAll out.1 }
    else p
  { p1 with queue := p1.queue ++ [.disconnect (some 1005)],
            transport := p1.transport.close }

/-- `IudeenProto.handle_ping` as its text intends: write the
codec-generated pong reply for the ping. The source calls
`self.conn.send(event.response())`; neither `send` nor `response` exists on
the `websockets` objects involved, so the body could not actually run, but
the dispatcher never calls it anyway (see `ping_event_is_ignored`). -/
def handle_ping (p : Proto) (b : List Nat) : Proto :=
  { p with transport := p.transport.write (.pong b) }

/-- The dispatch chain of `IudeenProto.handle_events` for one event:
`isinstance(event, Request)`, then `event.opcode == OP_TEXT`, then
`event.opcode == OP_CLOSE`; any other event falls through with no effect
(there is no binary, ping, pong or malformed-request branch). -/
def handle_events_one (p : Proto) (e : WsEvent) : Proto :=
  match e with
  | .request r => handle_connect p r
  | .textFrame s _ => handle_text p s
  | .closeFrame _ => handle_close p
  | _ => p

/-- `IudeenProto.handle_events`: process every event the codec produced, in
order. -/
def handle_events (p : Proto) (evs : List WsEvent) : Proto :=
  evs.foldl handle_events_one p

/-- `IudeenProto.send_500_response`: the body is `print("500 Error")` — a
line on stdout; nothing is written to the transport and no connection
state changes. -/
def send_500_response (p : Proto) : Proto := p

/-- How the application task can finish: returning a value (tracked only as
whether the value is `None`) or raising an uncaught exception. -/
inductive AppOutcome where
  | completed (result_is_none : Bool)
  | exc
deriving DecidableEq

/-- The supervision tail of `IudeenProto.run_asgi`: on an uncaught
exception, call `send_500_response` when the handshake is incomplete, then
close the transport; on return, close after a 500 when the handshake is
incomplete, close when the result is not `None`, otherwise do nothing. -/
def run_asgi_finish (p : Proto) (out : AppOutcome) : Proto :=
  match out with
  | .exc =>
    let p1 := if !p.handshake_complete then send_500_response p else p
    { p1 with transport := p1.transport.close }
  | .completed result_is_none =>
    if !p.handshake_complete then
      let p1 := send_500_response p
      { p1 with transport := p1.transport.close }
    else if !result_is_none then
      { p with transport := p.transport.close }
    else p

/-- One full completion of the application task: the `run_asgi` epilogue
followed by the `add_done_callback` firing `on_task_complete` exactly once
for the finished task. -/
def task_complete (p : Proto) (t : Nat) (out : AppOutcome) : Proto :=
  let p1 := run_asgi_finish p out
  { p1 with tasks := on_task_complete p1.tasks t }

/-- `IudeenProto.send`, branch for branch. Every `raise` in the source
happens before any mutation, so an `Except.error` result models the raise
with the connection state untouched. -/
def send (p : Proto) (m : Message) : Except SendError Proto :=
  if !p.handshake_complete then
    if m.type = "websocket.accept" then
      let p1 := { p with handshake_complete := true }
      let out := p1.conn.data_to_send
      .ok { p1 with conn := out.2, transport := p1.transport.writeAll out.1 }
    else if m.type = "websocket.close" then
      let p1 := { p with queue := p.queue ++ [InEvent.disconnect none],
                         handshake_complete := true,
                         close_sent := true }
      let conn1 := p1.conn.send_response (p1.conn.reject 403 "Reject")
      let out := conn1.data_to_send
      .ok { p1 with conn := out.2,
                    transport := ((p1.transport.writeAll out.1).close) }
    else
      .error (.runtimeError
        ("Expected ASGI message websocket.accept or websocket.close, but got "
          ++ m.type))
  else if !p.close_sent then
    if m.type = "websocket.send" then
      match m.wsData with
      | .pystr s =>
        let conn1 := p.conn.send_text s
        if !p.transport.is_closing then
          let out := conn1.data_to_send
          .ok { p with conn := out.2, transport := p.transport.writeAll out.1 }
        else .ok { p with conn := conn1 }
      | .pybytes b =>
        let conn1 := p.conn.send_binary b
        if !p.transport.is_closing then
          let out := conn1.data_to_send
          .ok { p with conn := out.2, transport := p.transport.writeAll out.1 }
        else .ok { p with conn := conn1 }
      | _ =>
        if messageIsMapping m then
          .error (.typeError "data is a dict-like object")
        else if messageIsIterable m then
          .error (.notImplementedError
            "Fragmented websocket messages are not supported.")
        else
          .error (.typeError "Websocket data must be bytes, str.")
    else if m.type = "websocket.close" then
      let code := m.code.getD 1000
      let reason := m.reason.getD ""
      let p1 := { p with close_sent := true,
                         queue := p.queue ++ [InEvent.disconnect (some code)] }
      let conn1 := p1.conn.send_close code reason
      if !p1.transport.is_closing then
        let out := conn1.data_to_send
        .ok { p1 with conn := out.2,
                      transport := ((p1.transport.writeAll out.1).close) }
      else .ok { p1 with conn := conn1 }
    else
      .error (.runtimeError
        ("Expected ASGI message websocket.send or websocket.close, but got "
          ++ m.type))
  else
    .error (.runtimeError
      ("Unexpected ASGI message " ++ m.type
        ++ ", after sending websocket.close."))

/-- The connection state after a call to `send` returns or raises: since
every raising branch of the source raises before any mutation, a raising
call leaves the state as it was. -/
def afterSend (p : Proto) (m : Message) : Proto :=
  match send p m with
  | .ok q => q
  | .error _ => p

/-- No raw h11 HTTP response frame has been written to the transport nor
queued in the codec: the observable trace `handle_no_connect` would leave. -/
def noHttpResp (p : Proto) : Bool :=
  p.transport.writes.all (fun f => !f.isHttpResp)
    && p.conn.pending.all (fun f => !f.isHttpResp)


/-! Concrete connection states used as test inputs. -/

/-- A connection whose handshake has completed and whose codec is open. -/
def openProto : Proto :=
  { handshake_complete := true, conn := { state := .OPEN } }

/-- An open connection whose transport already reports `is_closing()`. -/
def closingProto : Proto :=
  { handshake_complete := true, conn := { state := .OPEN },
    transport := { isClosingFlag := true } }

/-- A connection that has completed the handshake and already sent a close. -/
def closedProto : Proto :=
  { handshake_complete := true, close_sent := true,
    conn := { state := .CLOSING } }

/-- A fresh connection (handshake not complete) with one registered task. -/
def taskProto : Proto := { tasks := [7] }

/-- C10: for every connection state, `handle_close` flushes the codec's
pending bytes to the transport (the guard `if self.conn.state.CLOSING:` is
constantly true, so the flush is not restricted to any state), then
enqueues a `websocket.disconnect` event with the fixed code 1005 and
closes the transport. -/
theorem handle_close_flushes_in_every_state (p : Proto) :
    (handle_close p).transport.writes = p.transport.writes ++ p.conn.pending ∧
    (handle_close p).queue = p.queue ++ [InEvent.disconnect (some 1005)] ∧
    (handle_close p).transport.closeCalls = p.transport.closeCalls + 1 := by
  simp [handle_close, pyTruthy, stateDotCLOSING, WsState.val,
    Codec.data_to_send, Transport.writeAll, Transport.close]

/-- C4: the dispatch chain of `handle_events` has no branch for ping
events, so a ping event produced by the codec changes nothing: no pong
bytes are written and the event queue is untouched (`handle_ping` is dead
code). -/
theorem ping_event_is_ignored (p : Proto) (b : List Nat) :
    handle_events_one p (.pingFrame b) = p := rfl

/-- C2: `shutdown` has no idempotence guard: called twice on an open
connection it enqueues the `websocket.disconnect` code-1012 event twice
and calls `transport.close()` twice, where a single shutdown enqueues it
once and closes once (and with the real codec the second `send_close`
raises `InvalidState`, after the second disconnect is already enqueued). -/
theorem shutdown_twice_double_enqueues :
    (shutdown openProto).queue = [InEvent.disconnect (some 1012)] ∧
    (shutdown openProto).transport.closeCalls = 1 ∧
    (shutdown (shutdown openProto)).queue
      = [InEvent.disconnect (some 1012), InEvent.disconnect (some 1012)] ∧
    (shutdown (shutdown openProto)).transport.closeCalls = 2 := by decide

/-- C7: when the application task raises before the handshake completed,
the adapter writes nothing to the transport (`send_500_response` only
prints to stdout), closes the transport, and the task registry entry is
removed; a normal completion also removes the registry entry. -/
theorem app_failure_no_transport_response :
    (task_complete taskProto 7 .exc).transport.writes = [] ∧
    (task_complete taskProto 7 .exc).transport.closeCalls = 1 ∧
    (task_complete taskProto 7 .exc).tasks = [] ∧
    (task_complete { taskProto with handshake_complete := true } 7
        (.completed true)).tasks = [] := by decide

/-- C3 counterexample: a complete one-fragment binary message dispatched
through `handle_events` enqueues nothing (there is no binary branch), and
after `handle_bytes` buffers a partial fragment directly the transport has
not been asked to pause reading. -/
theorem binary_partial_no_pause_cex :
    handle_events ({} : Proto) [WsEvent.binaryFrame [1] true] = ({} : Proto) ∧
    (handle_bytes ({} : Proto)
        { data := [1], message_finished := false }).bytesBuf = [1] ∧
    (handle_bytes ({} : Proto)
        { data := [1], message_finished := false }).read_paused = false ∧
    (handle_bytes ({} : Proto)
        { data := [1], message_finished := false }).transport.pauseReadingCalls
      = 0 := by decide

/-- Helper: a run of unfinished fragments through `handle_bytes` only grows
the reassembly buffer; queue, transport and pause flag are untouched. -/
theorem handle_bytes_unfinished_foldl (p : Proto) (frags : List (List Nat)) :
    frags.foldl
        (fun st d => handle_bytes st { data := d, message_finished := false }) p
      = { p with bytesBuf := p.bytesBuf ++ frags.flatten } := by
  induction frags generalizing p with
  | nil => simp
  | cons d ds ih =>
    rw [List.foldl_cons, ih]
    simp [handle_bytes, List.append_assoc]

/-- C3 amended: `handle_bytes` accumulates fragment payloads and enqueues a
single `websocket.receive` event with the full bytes only when the codec
signals message completion; the pause request happens right after a
completed message is enqueued (when not already paused), never while a
partial message is buffered; and `handle_events` has no binary branch, so
the dispatcher itself drops binary data events. -/
theorem handle_bytes_amended (p : Proto) (frags : List (List Nat))
    (lastFrag : List Nat) :
    (frags.foldl
        (fun st d => handle_bytes st { data := d, message_finished := false })
        p).queue = p.queue ∧
    (frags.foldl
        (fun st d => handle_bytes st { data := d, message_finished := false })
        p).bytesBuf = p.bytesBuf ++ frags.flatten ∧
    (frags.foldl
        (fun st d => handle_bytes st { data := d, message_finished := false })
        p).transport = p.transport ∧
    (frags.foldl
        (fun st d => handle_bytes st { data := d, message_finished := false })
        p).read_paused = p.read_paused ∧
    (handle_bytes
        (frags.foldl
          (fun st d => handle_bytes st { data := d, message_finished := false })
          p)
        { data := lastFrag, message_finished := true }).queue
      = p.queue
          ++ [InEvent.receiveBytes (p.bytesBuf ++ frags.flatten ++ lastFrag)] ∧
    (handle_bytes
        (frags.foldl
          (fun st d => handle_bytes st { data := d, message_finished := false })
          p)
        { data := lastFrag, message_finished := true }).bytesBuf = [] ∧
    (handle_bytes
        (frags.foldl
          (fun st d => handle_bytes st { data := d, message_finished := false })
          p)
        { data := lastFrag, message_finished := true }).read_paused = true ∧
    (handle_bytes
        (frags.foldl
          (fun st d => handle_bytes st { data := d, message_finished := false })
          p)
        { data := lastFrag, message_finished := true }).transport.pauseReadingCalls
      = p.transport.pauseReadingCalls + (if p.read_paused then 0 else 1) ∧
    (∀ b finFlag, handle_events_one p (.binaryFrame b finFlag) = p) := by
  rw [handle_bytes_unfinished_foldl]
  refine ⟨?_, ?_, ?_, ?_, ?_, ?_, ?_, ?_, fun b finFlag => rfl⟩ <;>
    by_cases hp : p.read_paused <;>
      simp [handle_bytes, hp, Transport.pause_reading, List.append_assoc]

/-- Helper: processing one codec event through the dispatch chain never
writes nor queues a raw h11 HTTP response frame. -/
theorem noHttpResp_step (p : Proto) (e : WsEvent) (h : noHttpResp p = true) :
    noHttpResp (handle_events_one p e) = true := by
  cases e with
  | request r =>
    simp_all [handle_events_one, handle_connect, Codec.send_response,
      Codec.accept, noHttpResp, Frame.isHttpResp, List.all_append]
  | textFrame s finFlag =>
    simp_all [handle_events_one, handle_text, Codec.data_to_send,
      Transport.writeAll, noHttpResp, List.all_append]
  | closeFrame c =>
    simp_all [handle_events_one, handle_close, pyTruthy, stateDotCLOSING,
      WsState.val, Codec.data_to_send, Transport.writeAll, Transport.close,
      noHttpResp, List.all_append]
  | binaryFrame b finFlag => exact h
  | pingFrame b => exact h
  | pongFrame b => exact h
  | contFrame b finFlag => exact h

/-- C5: the event dispatcher can never produce the 400 failure response:
`handle_events` preserves the absence of raw HTTP response frames for every
event sequence, while `handle_no_connect` — the only code that builds that
response — would break it; `handle_events` has no branch that calls it, so
a malformed upgrade gets no 400 response and no transport close. -/
theorem dispatcher_never_writes_http_response (p : Proto)
    (evs : List WsEvent) (r : String) (h : noHttpResp p = true) :
    noHttpResp (handle_events p evs) = true ∧
    noHttpResp (handle_no_connect p r) = false := by
  constructor
  · induction evs generalizing p with
    | nil => exact h
    | cons e es ih => exact ih _ (noHttpResp_step p e h)
  · simp [handle_no_connect, noHttpResp, Frame.isHttpResp, Transport.write,
      Transport.close, List.all_append]

/-- Witness for C5 at a concrete connection and event sequence. -/
theorem dispatcher_never_writes_http_response_witness :
    noHttpResp (handle_events ({} : Proto)
      [WsEvent.request {}, WsEvent.textFrame "hi" true]) = true ∧
    noHttpResp (handle_no_connect ({} : Proto) "Bad Request") = false :=
  dispatcher_never_writes_http_response {}
    [WsEvent.request {}, WsEvent.textFrame "hi" true] "Bad Request" (by decide)

/-- Helper: a successful `send` always leaves `handshake_complete` true, so
the invariant `close_sent implies handshake_complete` holds in every state
reachable through `send` (the only code that sets either flag; `__init__`
starts both false and no other method touches them). -/
theorem send_ok_handshake_complete (p : Proto) (m : Message) (q : Proto)
    (hok : send p m = Except.ok q) : q.handshake_complete = true := by
  unfold send at hok
  repeat' split at hok
  all_goals simp_all
  all_goals try (split at hok <;> simp_all)
  all_goals (subst hok; rfl)

/-- C1: a `send` whose intent type is neither accept nor close while the
handshake is incomplete raises a RuntimeError, and any `send` after close
was sent raises the after-close RuntimeError; in both cases nothing is
enqueued and nothing is written (the hypothesis `close_sent implies
handshake_complete` holds in every reachable state, see
`send_ok_handshake_complete`). -/
theorem send_rejects_invalid_state (p : Proto) (m : Message)
    (hinv : p.close_sent = true → p.handshake_complete = true) :
    (p.handshake_complete = false → m.type ≠ "websocket.accept" →
        m.type ≠ "websocket.close" →
      (∃ e, send p m = .error (SendError.runtimeError e)) ∧
        (afterSend p m).queue = p.queue ∧
        (afterSend p m).transport.writes = p.transport.writes) ∧
    (p.close_sent = true →
      (∃ e, send p m = .error (SendError.runtimeError e)) ∧
        (afterSend p m).queue = p.queue ∧
        (afterSend p m).transport.writes = p.transport.writes) := by
  constructor
  · intro h1 h2 h3
    have hs : send p m = .error (.runtimeError
        ("Expected ASGI message websocket.accept or websocket.close, but got "
          ++ m.type)) := by
      simp [send, h1, h2, h3]
    exact ⟨⟨_, hs⟩, by simp [afterSend, hs], by simp [afterSend, hs]⟩
  · intro h1
    have h2 := hinv h1
    have hs : send p m = .error (.runtimeError
        ("Unexpected ASGI message " ++ m.type
          ++ ", after sending websocket.close.")) := by
      simp [send, h1, h2]
    exact ⟨⟨_, hs⟩, by simp [afterSend, hs], by simp [afterSend, hs]⟩

/-- Witness for C1: a fresh connection rejects a data send, and a
connection that already sent close rejects everything. -/
theorem send_rejects_invalid_state_witness :
    ((∃ e, send ({} : Proto) { type := "websocket.send" }
        = .error (SendError.runtimeError e)) ∧
      (afterSend ({} : Proto) { type := "websocket.send" }).queue
        = ({} : Proto).queue ∧
      (afterSend ({} : Proto) { type := "websocket.send" }).transport.writes
        = ({} : Proto).transport.writes) ∧
    ((∃ e, send closedProto { type := "websocket.send" }
        = .error (SendError.runtimeError e)) ∧
      (afterSend closedProto { type := "websocket.send" }).queue
        = closedProto.queue ∧
      (afterSend closedProto { type := "websocket.send" }).transport.writes
        = closedProto.transport.writes) :=
  ⟨(send_rejects_invalid_state {} { type := "websocket.send" }
      (by decide)).1 (by decide) (by decide) (by decide),
   (send_rejects_invalid_state closedProto { type := "websocket.send" }
      (by decide)).2 (by decide)⟩

/-- C6: in the OPEN state, a `websocket.send` with neither text nor bytes
set fails with the dict-like TypeError (the payload is None, so the
isinstance chain falls to the Mapping check on the message itself) and no
bytes are written. -/
theorem send_missing_payload_typeerror (p : Proto)
    (h1 : p.handshake_complete = true) (h2 : p.close_sent = false) :
    send p { type := "websocket.send" }
      = .error (SendError.typeError "data is a dict-like object") ∧
    (afterSend p { type := "websocket.send" }).transport.writes
      = p.transport.writes := by
  have hs : send p { type := "websocket.send" }
      = .error (.typeError "data is a dict-like object") := by
    simp [send, h1, h2, Message.wsData, messageIsMapping]
  exact ⟨hs, by simp [afterSend, hs]⟩

/-- Witness for C6 on an open connection. -/
theorem send_missing_payload_typeerror_witness :
    send openProto { type := "websocket.send" }
      = .error (SendError.typeError "data is a dict-like object") ∧
    (afterSend openProto { type := "websocket.send" }).transport.writes
      = openProto.transport.writes :=
  send_missing_payload_typeerror openProto rfl rfl

/-- C8: in the OPEN state, a `websocket.send` whose payload is neither a
str nor bytes-like always takes the dict-like TypeError branch, because
the later isinstance checks test the whole message dict (always a
Mapping): the fragmented-iterable NotImplementedError branch and the final
"must be bytes, str" TypeError branch are unreachable. -/
theorem fragmented_branch_unreachable (p : Proto) (m : Message)
    (h1 : p.handshake_complete = true) (h2 : p.close_sent = false)
    (ht : m.type = "websocket.send")
    (hs : m.wsData.isStr = false) (hb : m.wsData.isBytesLike = false) :
    send p m = .error (SendError.typeError "data is a dict-like object") ∧
    (∀ e, send p m ≠ .error (SendError.notImplementedError e)) ∧
    send p m ≠ .error (SendError.typeError "Websocket data must be bytes, str.") := by
  have hres : send p m = .error (.typeError "data is a dict-like object") := by
    cases hd : m.wsData with
    | pystr s => rw [hd] at hs; simp [PyVal.isStr] at hs
    | pybytes b => rw [hd] at hb; simp [PyVal.isBytesLike] at hb
    | pynone => simp [send, h1, h2, ht, hd, messageIsMapping]
    | pydict => simp [send, h1, h2, ht, hd, messageIsMapping]
    | pylist => simp [send, h1, h2, ht, hd, messageIsMapping]
  refine ⟨hres, fun e h => ?_, fun h => ?_⟩
  · rw [hres] at h
    injection h with h2
    injection h2
  · rw [hres] at h
    injection h with h2
    injection h2 with h3
    exact absurd h3 (by decide)

/-- Witness for C8: sending a dict payload on an open connection. -/
theorem fragmented_branch_unreachable_witness :
    send openProto { type := "websocket.send", bytesF := PyVal.pydict }
      = .error (SendError.typeError "data is a dict-like object") ∧
    (∀ e, send openProto { type := "websocket.send", bytesF := PyVal.pydict }
      ≠ .error (SendError.notImplementedError e)) ∧
    send openProto { type := "websocket.send", bytesF := PyVal.pydict }
      ≠ .error (SendError.typeError "Websocket data must be bytes, str.") :=
  fragmented_branch_unreachable openProto
    { type := "websocket.send", bytesF := PyVal.pydict }
    rfl rfl rfl (by decide) (by decide)

/-- C9: with the transport already closing, an OPEN-state `websocket.send`
encodes the frame into the codec but writes nothing and raises nothing
(the message is silently dropped), and a `websocket.close` still enqueues
the disconnect and marks close-sent but writes no close frame and never
calls `transport.close()`. -/
theorem send_on_closing_transport (p : Proto)
    (h1 : p.handshake_complete = true) (h2 : p.close_sent = false)
    (h3 : p.transport.isClosingFlag = true) :
    (∀ b, ∃ q,
      send p { type := "websocket.send", bytesF := PyVal.pybytes b }
          = .ok q ∧
        q.conn.pending = p.conn.pending ++ [Frame.binary b] ∧
        q.transport.writes = p.transport.writes ∧
        q.transport.closeCalls = p.transport.closeCalls ∧
        q.queue = p.queue) ∧
    (∀ s, ∃ q,
      send p { type := "websocket.send", textF := PyVal.pystr s } = .ok q ∧
        q.conn.pending = p.conn.pending ++ [Frame.text s] ∧
        q.transport.writes = p.transport.writes) ∧
    (∀ c, ∃ q,
      send p { type := "websocket.close", code := some c } = .ok q ∧
        q.close_sent = true ∧
        q.queue = p.queue ++ [InEvent.disconnect (some c)] ∧
        q.transport.writes = p.transport.writes ∧
        q.transport.closeCalls = p.transport.closeCalls) := by
  refine ⟨fun b => ⟨{ p with conn := p.conn.send_binary b },
      ?_, ?_, rfl, rfl, rfl⟩,
    fun s => ⟨{ p with conn := p.conn.send_text s }, ?_, ?_, rfl⟩,
    fun c => ⟨{ p with close_sent := true,
                       queue := p.queue ++ [InEvent.disconnect (some c)],
                       conn := p.conn.send_close c "" },
      ?_, rfl, rfl, rfl, rfl⟩⟩
  · simp [send, h1, h2, h3, Message.wsData, Transport.is_closing]
  · simp [Codec.send_binary]
  · simp [send, h1, h2, h3, Message.wsData, Transport.is_closing]
  · simp [Codec.send_text]
  · simp [send, h1, h2, h3, Transport.is_closing]

/-- Witness for C9 on an open connection whose transport is closing. -/
theorem send_on_closing_transport_witness :
    (∃ q, send closingProto
          { type := "websocket.send", bytesF := PyVal.pybytes [7] }
        = .ok q ∧
      q.conn.pending = closingProto.conn.pending ++ [Frame.binary [7]] ∧
      q.transport.writes = closingProto.transport.writes ∧
      q.transport.closeCalls = closingProto.transport.closeCalls ∧
      q.queue = closingProto.queue) ∧
    (∃ q, send closingProto { type := "websocket.close", code := some 1001 }
        = .ok q ∧
      q.close_sent = true ∧
      q.queue = closingProto.queue ++ [InEvent.disconnect (some 1001)] ∧
      q.transport.writes = closingProto.transport.writes ∧
      q.transport.closeCalls = closingProto.transport.closeCalls) :=
  ⟨(send_on_closing_transport closingProto rfl rfl rfl).1 [7],
   (send_on_closing_transport closingProto rfl rfl rfl).2.2 1001⟩

end MyProto
